import Mathlib

/-!
Verification development for the single-file JDBC MCP server
(`simple_jdbc.py`).  The Python source is shallowly embedded: pure string
validation becomes Lean functions on `String`, the stateful `JdbcClient`
becomes explicit state passing over a `ClientState` record, the external
JDBC bridge (jaydebeapi + vendor driver + database) is modelled by a
`Backend` record of oracles, and exceptions become `Except Err`.  Every
backend interaction is recorded in a trace so that "no backend call
occurs" is a provable statement.
-/

deriving instance DecidableEq for Except

namespace SimpleJdbc

/-- A database cell value as surfaced through the connectivity bridge. -/
inductive Value
  | null
  | str (s : String)
  | int (n : Int)
  | bool (b : Bool)
deriving DecidableEq, Repr

/-- A backend result set: the column names in the backend's reported order
(`cursor.description`) together with the full list of result rows. -/
structure ResultSet where
  columns : List String
  rows : List (List Value)
deriving DecidableEq, Repr

/-- A DB-API cursor over a materialized result set: a read position into
the row list. -/
structure Cursor where
  rs : ResultSet
  pos : Nat
deriving DecidableEq, Repr

/-- `cursor.fetchmany(n)`: return the next `n` rows (fewer at the end of
the result set) and advance the cursor past them. -/
def Cursor.fetchmany (c : Cursor) (n : Nat) : List (List Value) × Cursor :=
  let taken := (c.rs.rows.drop c.pos).take n
  (taken, { c with pos := c.pos + taken.length })

/-- `cursor.fetchone()`: return the next row if one exists (else `none`)
and advance the cursor by one. -/
def Cursor.fetchone (c : Cursor) : Option (List Value) × Cursor :=
  match (c.rs.rows.drop c.pos).head? with
  | none => (none, c)
  | some r => (some r, { c with pos := c.pos + 1 })

/-- One row of `DatabaseMetaData.getTables`. -/
structure TableEntry where
  table_name : String
  schema : Option String
  type : String
  remarks : Option String
deriving DecidableEq, Repr

/-- One row of `DatabaseMetaData.getColumns`, with the fields the client
reads (`COLUMN_NAME`, `TYPE_NAME`, `COLUMN_SIZE`, `NULLABLE`,
`COLUMN_DEF`, `REMARKS`). -/
structure ColumnEntry where
  name : String
  type : String
  size : Int
  nullable : Bool
  default : Option String
  remarks : Option String
deriving DecidableEq, Repr

/-- One row of `DatabaseMetaData.getImportedKeys`, with the fields the
client reads. -/
structure FkEntry where
  fk_name : Option String
  fk_column : String
  pk_table : String
  pk_column : String
deriving DecidableEq, Repr

/-- Model of the external JDBC bridge (jaydebeapi, the vendor driver and
the database behind it).  `runQuery` is the backend's response to
executing a statement; the `catalog*` fields are the backend's catalog
metadata; `connectOk`/`metaOk`/`closeFails` say whether the corresponding
external calls succeed or raise. -/
structure Backend where
  connectOk : Bool
  connectErr : String
  closeFails : Bool
  metaOk : Bool
  metaErr : String
  runQuery : String → Except String ResultSet
  catalogTables : List TableEntry
  catalogColumns : Option String → String → List ColumnEntry
  catalogPrimaryKeys : Option String → String → List String
  catalogImportedKeys : Option String → String → List FkEntry

/-- `DatabaseMetaData.getTables(null, schemaPattern, "%", types)`: the
catalog entries matching the schema (when one is given) whose
`TABLE_TYPE` is among `types` (`null` types means no type filter),
reported in the catalog's natural order. -/
def Backend.getTables (b : Backend) (schema : Option String)
    (types : Option (List String)) : List TableEntry :=
  b.catalogTables.filter fun t =>
    (match schema with
     | none => true
     | some sc => decide (t.schema = some sc)) &&
    (match types with
     | none => true
     | some ts => ts.any fun ty => decide (ty = t.type))

/-- Errors raised inside the Python code: `validation` for
pydantic/`ValueError` validation failures, `jdbc` for `JdbcError`. -/
inductive Err
  | validation (msg : String)
  | jdbc (msg : String)
deriving DecidableEq, Repr

/-- `str(e)`: the human-readable message carried by an error. -/
def Err.message : Err → String
  | .validation m => m
  | .jdbc m => m

/-- `JdbcConfig`: the five configuration fields, sourced from the
environment by the handlers. -/
structure JdbcConfig where
  jdbc_url : String
  jdbc_driver : String
  jdbc_driver_path : String
  username : String
  password : String
deriving DecidableEq, Repr

/-- `os.path.exists` over the modelled filesystem: the list of paths that
exist. -/
def pathExists (fs : List String) (p : String) : Bool :=
  fs.any fun q => decide (q = p)

/-- Python's whitespace test for `str.strip` (ASCII range). -/
def pyIsSpace (c : Char) : Bool :=
  c = ' ' || c = '\t' || c = '\n' || c = '\r' || c = '\x0b' || c = '\x0c'

/-- Python `str.strip()`: remove leading and trailing whitespace. -/
def pyStrip (s : String) : String :=
  ⟨((s.data.dropWhile pyIsSpace).reverse.dropWhile pyIsSpace).reverse⟩

/-- Python `str.upper()` on one character (ASCII letters). -/
def pyUpperChar (c : Char) : Char :=
  if 'a' ≤ c && c ≤ 'z' then Char.ofNat (c.toNat - 32) else c

/-- Python `str.upper()`. -/
def pyUpper (s : String) : String := ⟨s.data.map pyUpperChar⟩

/-- Python `str.startswith(p)`. -/
def pyStartsWith (s p : String) : Bool :=
  decide (s.data.take p.data.length = p.data)

/-- `QueryArgs.validate_query`: reject when the statement is empty after
stripping; uppercase the stripped statement and reject unless it starts
with `"SELECT"`; on success return the stripped statement. -/
def QueryArgs.validate_query (v : String) : Except Err String :=
  if pyStrip v = "" then .error (.validation "Query cannot be empty")
  else
    let cleaned_query := pyUpper (pyStrip v)
    if pyStartsWith cleaned_query "SELECT" then .ok (pyStrip v)
    else .error (.validation "Only SELECT queries are allowed for security reasons")

/-- Validated arguments of the `execute_query` tool. -/
structure QueryArgs where
  query : String
  max_rows : Nat
deriving DecidableEq, Repr

/-- Pydantic construction of `QueryArgs`: run the query field validator,
then enforce `max_rows` between 1 and 1000 (the handler substitutes the
default 100 when the field is omitted). -/
def QueryArgs.parse (query : String) (max_rows : Int) : Except Err QueryArgs :=
  match QueryArgs.validate_query query with
  | .error e => .error e
  | .ok q =>
    if max_rows < 1 then .error (.validation "max_rows must be greater than or equal to 1")
    else if 1000 < max_rows then .error (.validation "max_rows must be less than or equal to 1000")
    else .ok { query := q, max_rows := max_rows.toNat }

/-- `GetColumnsArgs.validate_table_name`: reject an empty (after
stripping) table name, otherwise return the stripped name. -/
def GetColumnsArgs.validate_table_name (v : String) : Except Err String :=
  if pyStrip v = "" then .error (.validation "Table name cannot be empty")
  else .ok (pyStrip v)

/-- The first whitespace-delimited token of a string (used to state the
spec's "first token" reading of the query check). -/
def firstToken (s : String) : String :=
  ⟨(s.data.dropWhile pyIsSpace).takeWhile fun c => !pyIsSpace c⟩

/-- An observable call into the external JDBC bridge. -/
inductive BackendCall
  | connect
  | execQuery (q : String)
  | getTablesMeta (schema : Option String) (types : Option (List String))
  | getColumnsMeta (schema : Option String) (table : String)
  | getPrimaryKeysMeta (schema : Option String) (table : String)
  | getImportedKeysMeta (schema : Option String) (table : String)
  | closeConn
deriving DecidableEq, Repr

/-- The mutable state of a `JdbcClient`: the held connection handle
(`self._connection`, `none` = `None`), a counter supplying fresh handle
ids, and the trace of backend calls made so far. -/
structure ClientState where
  connection : Option Nat
  nextId : Nat
  trace : List BackendCall
deriving DecidableEq, Repr

/-- `JdbcClient._verify_config`: the checks run at construction, in
source order. -/
def JdbcClient.verify_config (fs : List String) (c : JdbcConfig) : Except Err Unit :=
  if c.jdbc_url = "" then .error (.jdbc "JDBC URL is required")
  else if c.jdbc_driver = "" then .error (.jdbc "JDBC driver class name is required")
  else if c.jdbc_driver_path = "" then .error (.jdbc "JDBC driver JAR path is required")
  else if !(pathExists fs c.jdbc_driver_path) then
    .error (.jdbc ("JDBC driver JAR not found at " ++ c.jdbc_driver_path))
  else .ok ()

/-- `JdbcClient.__init__`: store the config, set `_connection = None`,
run `_verify_config`.  No backend is involved at all. -/
def JdbcClient.mk (fs : List String) (config : JdbcConfig) : Except Err ClientState :=
  match JdbcClient.verify_config fs config with
  | .error e => .error e
  | .ok _ => .ok { connection := none, nextId := 0, trace := [] }

/-- `JdbcClient.connect`: unconditionally call `jaydebeapi.connect`; on
success install the newly created connection handle (a fresh id) and
return `True`; on failure raise `JdbcError("Connection failed: ...")`,
leaving the previously held handle in place. -/
def JdbcClient.connect (b : Backend) (s : ClientState) : Except Err Bool × ClientState :=
  let s1 := { s with trace := s.trace ++ [BackendCall.connect] }
  if b.connectOk then
    (.ok true, { s1 with connection := some s1.nextId, nextId := s1.nextId + 1 })
  else
    (.error (.jdbc ("Connection failed: " ++ b.connectErr)), s1)

/-- `JdbcClient.close`: if a connection is held, call its `close()`
inside try/except (a failure from the backend close is logged and
swallowed) and in the `finally` set `_connection = None`; when no
connection is held, do nothing. -/
def JdbcClient.close (b : Backend) (s : ClientState) : ClientState :=
  match s.connection with
  | none => s
  | some _ =>
    let s1 := { s with trace := s.trace ++ [BackendCall.closeConn] }
    if b.closeFails then { s1 with connection := none }
    else { s1 with connection := none }

/-- The shape of a successful `execute_query` result. -/
structure QueryResult where
  columns : List String
  rows : List (List Value)
  row_count : Nat
  has_more : Bool
deriving DecidableEq, Repr

/-- The body of `JdbcClient.execute_query` after the connection is in
place: execute through a cursor, read the column names in description
order, `fetchmany(max_rows)`, then probe one extra row for `has_more`. -/
def JdbcClient.executeQueryBody (b : Backend) (query : String) (max_rows : Nat)
    (s : ClientState) : Except Err QueryResult × ClientState :=
  let s1 := { s with trace := s.trace ++ [BackendCall.execQuery query] }
  match b.runQuery query with
  | .error msg => (.error (.jdbc ("Query failed: " ++ msg)), s1)
  | .ok rs =>
    let c0 : Cursor := { rs := rs, pos := 0 }
    let columns := rs.columns
    let fetched := c0.fetchmany max_rows
    let extra := fetched.2.fetchone
    (.ok { columns := columns
           rows := fetched.1.map (fun r => r)
           row_count := fetched.1.length
           has_more := extra.1.isSome }, s1)

/-- `JdbcClient.execute_query`: `if not self._connection: self.connect()`
(a failure of this implicit connect propagates), then the query body. -/
def JdbcClient.execute_query (b : Backend) (query : String) (max_rows : Nat)
    (s : ClientState) : Except Err QueryResult × ClientState :=
  match s.connection with
  | none =>
    let c := JdbcClient.connect b s
    match c.1 with
    | .error e => (.error e, c.2)
    | .ok _ => JdbcClient.executeQueryBody b query max_rows c.2
  | some _ => JdbcClient.executeQueryBody b query max_rows s

/-- The shape of a successful `get_tables` result. -/
structure GetTablesResult where
  tables : List TableEntry
  count : Nat
deriving DecidableEq, Repr

/-- The body of `JdbcClient.get_tables`: call
`metadata.getTables(None, schema, "%", ["TABLE"] if not include_system
else None)` and package the entries in catalog order. -/
def JdbcClient.getTablesBody (b : Backend) (schema : Option String)
    (include_system : Bool) (s : ClientState) : Except Err GetTablesResult × ClientState :=
  let types : Option (List String) := if !include_system then some ["TABLE"] else none
  let s1 := { s with trace := s.trace ++ [BackendCall.getTablesMeta schema types] }
  if b.metaOk then
    let ts := b.getTables schema types
    (.ok { tables := ts, count := ts.length }, s1)
  else
    (.error (.jdbc ("Failed to get tables: " ++ b.metaErr)), s1)

/-- `JdbcClient.get_tables`: implicit connect when no connection is
open, then the catalog body. -/
def JdbcClient.get_tables (b : Backend) (schema : Option String)
    (include_system : Bool) (s : ClientState) : Except Err GetTablesResult × ClientState :=
  match s.connection with
  | none =>
    let c := JdbcClient.connect b s
    match c.1 with
    | .error e => (.error e, c.2)
    | .ok _ => JdbcClient.getTablesBody b schema include_system c.2
  | some _ => JdbcClient.getTablesBody b schema include_system s

/-- The shape of a successful `get_columns` result. -/
structure ColumnsResult where
  table_name : String
  schema : Option String
  columns : List ColumnEntry
  primary_keys : List String
  foreign_keys : List FkEntry
deriving DecidableEq, Repr

/-- The body of `JdbcClient.get_columns`: three catalog calls
(`getColumns`, `getPrimaryKeys`, `getImportedKeys`) on the same
table/schema pair, merged into one record; `table_name` and `schema`
are echoed from the arguments, not read back from the catalog. -/
def JdbcClient.getColumnsBody (b : Backend) (table_name : String)
    (schema : Option String) (s : ClientState) : Except Err ColumnsResult × ClientState :=
  if b.metaOk then
    let s1 := { s with trace := s.trace ++
      [BackendCall.getColumnsMeta schema table_name,
       BackendCall.getPrimaryKeysMeta schema table_name,
       BackendCall.getImportedKeysMeta schema table_name] }
    (.ok { table_name := table_name
           schema := schema
           columns := b.catalogColumns schema table_name
           primary_keys := b.catalogPrimaryKeys schema table_name
           foreign_keys := b.catalogImportedKeys schema table_name }, s1)
  else
    let s1 := { s with trace := s.trace ++ [BackendCall.getColumnsMeta schema table_name] }
    (.error (.jdbc ("Failed to get columns: " ++ b.metaErr)), s1)

/-- `JdbcClient.get_columns`: implicit connect when no connection is
open, then the catalog body. -/
def JdbcClient.get_columns (b : Backend) (table_name : String)
    (schema : Option String) (s : ClientState) : Except Err ColumnsResult × ClientState :=
  match s.connection with
  | none =>
    let c := JdbcClient.connect b s
    match c.1 with
    | .error e => (.error e, c.2)
    | .ok _ => JdbcClient.getColumnsBody b table_name schema c.2
  | some _ => JdbcClient.getColumnsBody b table_name schema s

/-- The observable outcome of one MCP handler invocation: either the
serialized success record or the structured failure record
`{"error": msg}`. -/
inductive HResult (α : Type)
  | ok (v : α)
  | err (msg : String)
deriving DecidableEq, Repr

/-- The `execute_query` MCP handler: validate the arguments, build the
config from the environment, construct a `JdbcClient` (which verifies
the config), run the query, and convert any raised error into the
structured `{"error": str(e)}` record; the `finally` block closes the
client whenever one was constructed.  The second component is the final
client state (`none` when the client was never constructed, so no
backend call occurred). -/
def execute_query (fs : List String) (env : JdbcConfig) (b : Backend)
    (query : String) (max_rows : Int) : HResult QueryResult × Option ClientState :=
  match QueryArgs.parse query max_rows with
  | .error e => (.err e.message, none)
  | .ok args =>
    match JdbcClient.mk fs env with
    | .error e => (.err e.message, none)
    | .ok s0 =>
      let r := JdbcClient.execute_query b args.query args.max_rows s0
      let s2 := JdbcClient.close b r.2
      match r.1 with
      | .ok v => (.ok v, some s2)
      | .error e => (.err e.message, some s2)

/-- The `get_tables` MCP handler (its two arguments have no field
validators), with the same try/except/finally shape as `execute_query`. -/
def get_tables (fs : List String) (env : JdbcConfig) (b : Backend)
    (schema : Option String) (include_system : Bool) :
    HResult GetTablesResult × Option ClientState :=
  match JdbcClient.mk fs env with
  | .error e => (.err e.message, none)
  | .ok s0 =>
    let r := JdbcClient.get_tables b schema include_system s0
    let s2 := JdbcClient.close b r.2
    match r.1 with
    | .ok v => (.ok v, some s2)
    | .error e => (.err e.message, some s2)

/-- The `get_columns` MCP handler: validate the table name, then the
same try/except/finally shape as the other handlers. -/
def get_columns (fs : List String) (env : JdbcConfig) (b : Backend)
    (table_name : String) (schema : Option String) :
    HResult ColumnsResult × Option ClientState :=
  match GetColumnsArgs.validate_table_name table_name with
  | .error e => (.err e.message, none)
  | .ok tn =>
    match JdbcClient.mk fs env with
    | .error e => (.err e.message, none)
    | .ok s0 =>
      let r := JdbcClient.get_columns b tn schema s0
      let s2 := JdbcClient.close b r.2
      match r.1 with
      | .ok v => (.ok v, some s2)
      | .error e => (.err e.message, some s2)

/-! Concrete instances used to witness the theorems below. -/

/-- An example filesystem containing just the driver JAR. -/
def fsEx : List String := ["/opt/driver.jar"]

/-- A fully populated example configuration. -/
def cfgEx : JdbcConfig :=
  { jdbc_url := "jdbc:db:mem", jdbc_driver := "Driver",
    jdbc_driver_path := "/opt/driver.jar", username := "u", password := "p" }

/-- A configuration whose driver fields are populated but whose
credentials are empty. -/
def cfgNoCreds : JdbcConfig :=
  { jdbc_url := "jdbc:db:mem", jdbc_driver := "Driver",
    jdbc_driver_path := "/opt/driver.jar", username := "", password := "" }

/-- A configuration with every field empty. -/
def cfgBad : JdbcConfig :=
  { jdbc_url := "", jdbc_driver := "", jdbc_driver_path := "",
    username := "", password := "" }

/-- An example backend result set with three rows and columns reported
in the non-alphabetical order B, A. -/
def rsEx : ResultSet :=
  { columns := ["B", "A"],
    rows := [[Value.int 1, Value.int 2], [Value.int 3, Value.int 4],
             [Value.int 5, Value.int 6]] }

/-- An example backend: connecting succeeds, one query is recognized,
and the catalog holds one ordinary table and one system table in the
schema `public`. -/
def bEx : Backend :=
  { connectOk := true, connectErr := "", closeFails := false,
    metaOk := true, metaErr := "",
    runQuery := fun q => if q = "SELECT B, A FROM T" then .ok rsEx else .error "syntax error",
    catalogTables :=
      [{ table_name := "users", schema := some "public", type := "TABLE", remarks := none },
       { table_name := "pg_class", schema := some "public", type := "SYSTEM TABLE", remarks := none }],
    catalogColumns := fun _ _ =>
      [{ name := "ID", type := "INTEGER", size := 10, nullable := false,
         default := none, remarks := none }],
    catalogPrimaryKeys := fun _ _ => ["ID"],
    catalogImportedKeys := fun _ _ => [] }

/-- The result `execute_query` produces on `bEx` for the recognized
query with `max_rows = 2`. -/
def resEx : QueryResult :=
  { columns := ["B", "A"],
    rows := [[Value.int 1, Value.int 2], [Value.int 3, Value.int 4]],
    row_count := 2, has_more := true }

/-- The final client state after that `execute_query` invocation. -/
def stEx : ClientState :=
  { connection := none, nextId := 1,
    trace := [BackendCall.connect, BackendCall.execQuery "SELECT B, A FROM T",
              BackendCall.closeConn] }

/-- The result `get_tables` produces on `bEx` for schema `public` with
system tables excluded. -/
def tablesResEx : GetTablesResult :=
  { tables := [{ table_name := "users", schema := some "public", type := "TABLE",
                 remarks := none }],
    count := 1 }

/-- The final client state after that `get_tables` invocation. -/
def tablesStEx : ClientState :=
  { connection := none, nextId := 1,
    trace := [BackendCall.connect,
              BackendCall.getTablesMeta (some "public") (some ["TABLE"]),
              BackendCall.closeConn] }

/-- The result `get_columns` produces on `bEx` for table `"  users "`
(stripped to `"users"`) in schema `public`. -/
def colsResEx : ColumnsResult :=
  { table_name := "users", schema := some "public",
    columns := [{ name := "ID", type := "INTEGER", size := 10, nullable := false,
                  default := none, remarks := none }],
    primary_keys := ["ID"], foreign_keys := [] }

/-- The final client state after that `get_columns` invocation. -/
def colsStEx : ClientState :=
  { connection := none, nextId := 1,
    trace := [BackendCall.connect,
              BackendCall.getColumnsMeta (some "public") "users",
              BackendCall.getPrimaryKeysMeta (some "public") "users",
              BackendCall.getImportedKeysMeta (some "public") "users",
              BackendCall.closeConn] }

/-! Helper lemmas. -/

/-- After `close`, no connection is held, whatever the prior state and
whatever the backend does. -/
lemma close_connection_eq_none (b : Backend) (s : ClientState) :
    (JdbcClient.close b s).connection = none := by
  unfold JdbcClient.close
  cases h : s.connection with
  | none => simpa using h
  | some c => cases hb : b.closeFails <;> simp

/-- `close` on a state with no connection is the identity. -/
lemma close_of_none (b : Backend) (s : ClientState) (h : s.connection = none) :
    JdbcClient.close b s = s := by
  unfold JdbcClient.close
  rw [h]

/-- The `has_more` probe: after taking `n` rows from the front, one more
row exists iff the result set has more than `n` rows. -/
lemma probe_has_more {α : Type} (l : List α) (n : Nat) :
    ((l.drop (l.take n).length).head?).isSome = decide (n < l.length) := by
  rw [List.length_take]
  rcases Nat.lt_or_ge n l.length with h | h
  · rw [Nat.min_eq_left (Nat.le_of_lt h)]
    have hne : l.drop n ≠ [] := by
      rw [ne_eq, List.drop_eq_nil_iff]
      omega
    have : (l.drop n).head?.isSome = true := by
      rw [Option.isSome_iff_ne_none, ne_eq, List.head?_eq_none_iff]
      exact hne
    rw [this]
    simp [h]
  · rw [Nat.min_eq_right h]
    have : l.drop l.length = [] := by
      rw [List.drop_eq_nil_iff]
    rw [this]
    simp
    omega

/-- The row returned by `fetchone` is the head of the remaining rows. -/
lemma fetchone_fst (c : Cursor) : (c.fetchone).1 = (c.rs.rows.drop c.pos).head? := by
  unfold Cursor.fetchone
  cases h : (c.rs.rows.drop c.pos).head? <;> simp

/-- `fetchmany` returns the next `n` rows. -/
lemma fetchmany_fst (c : Cursor) (n : Nat) :
    (c.fetchmany n).1 = (c.rs.rows.drop c.pos).take n := rfl

/-- `fetchmany` advances the position by the number of rows returned. -/
lemma fetchmany_snd_pos (c : Cursor) (n : Nat) :
    (c.fetchmany n).2.pos = c.pos + ((c.rs.rows.drop c.pos).take n).length := rfl

/-- `fetchmany` leaves the underlying result set unchanged. -/
lemma fetchmany_snd_rs (c : Cursor) (n : Nat) : (c.fetchmany n).2.rs = c.rs := rfl

/-- Characterization of successful client construction: exactly the
three driver fields are checked (non-empty url, driver class and driver
path, and the path must exist); the fresh client holds no connection and
has made no backend call. -/
lemma mk_ok_iff (fs : List String) (cfg : JdbcConfig) (s : ClientState) :
    JdbcClient.mk fs cfg = Except.ok s ↔
      (cfg.jdbc_url ≠ "" ∧ cfg.jdbc_driver ≠ "" ∧ cfg.jdbc_driver_path ≠ "" ∧
       pathExists fs cfg.jdbc_driver_path = true ∧
       s = { connection := none, nextId := 0, trace := [] }) := by
  unfold JdbcClient.mk JdbcClient.verify_config
  by_cases h1 : cfg.jdbc_url = ""
  · simp [h1]
  · by_cases h2 : cfg.jdbc_driver = ""
    · simp [h1, h2]
    · by_cases h3 : cfg.jdbc_driver_path = ""
      · simp [h1, h2, h3]
      · by_cases h4 : pathExists fs cfg.jdbc_driver_path = true
        · simp [h1, h2, h3, h4]
          exact eq_comm
        · simp [h1, h2, h3, h4]

/-- When one of the checked conditions fails, construction raises. -/
lemma mk_error_of_bad (fs : List String) (cfg : JdbcConfig)
    (hbad : ¬ (cfg.jdbc_url ≠ "" ∧ cfg.jdbc_driver ≠ "" ∧ cfg.jdbc_driver_path ≠ "" ∧
               pathExists fs cfg.jdbc_driver_path = true)) :
    ∃ e, JdbcClient.mk fs cfg = Except.error e := by
  cases hm : JdbcClient.mk fs cfg with
  | error e => exact ⟨e, rfl⟩
  | ok s =>
    have := (mk_ok_iff fs cfg s).mp hm
    exact absurd ⟨this.1, this.2.1, this.2.2.1, this.2.2.2.1⟩ hbad

/-- Inversion of successful `QueryArgs` validation: the stored query is
the stripped statement, which is non-empty and SELECT-prefixed after
uppercasing, and `max_rows` is within the declared bounds. -/
lemma parse_ok_inversion (q : String) (mr : Int) (args : QueryArgs)
    (hp : QueryArgs.parse q mr = Except.ok args) :
    args.query = pyStrip q ∧ args.max_rows = mr.toNat ∧ 1 ≤ mr ∧ mr ≤ 1000 ∧
    pyStrip q ≠ "" ∧ pyStartsWith (pyUpper (pyStrip q)) "SELECT" = true := by
  unfold QueryArgs.parse QueryArgs.validate_query at hp
  by_cases h1 : pyStrip q = ""
  · simp [h1] at hp
  · by_cases h2 : pyStartsWith (pyUpper (pyStrip q)) "SELECT" = true
    · by_cases h3 : mr < 1
      · simp [h1, h2, h3] at hp
      · by_cases h4 : 1000 < mr
        · simp [h1, h2, h3, h4] at hp
        · simp [h1, h2, h3, h4] at hp
          refine ⟨?_, ?_, by omega, by omega, h1, h2⟩ <;> rw [← hp]
    · simp [h1, h2] at hp

/-- Inversion of a successful pass through the query body: the backend
accepted the statement, and the result is assembled from the first
`max_rows` rows plus the one-row `has_more` probe. -/
lemma executeQueryBody_ok (b : Backend) (q : String) (n : Nat) (s : ClientState)
    (res : QueryResult)
    (h : (JdbcClient.executeQueryBody b q n s).1 = Except.ok res) :
    ∃ rs, b.runQuery q = Except.ok rs ∧
      res = { columns := rs.columns, rows := rs.rows.take n,
              row_count := (rs.rows.take n).length,
              has_more := ((rs.rows.drop (rs.rows.take n).length).head?).isSome } := by
  unfold JdbcClient.executeQueryBody at h
  cases hq : b.runQuery q with
  | error msg => rw [hq] at h; simp at h
  | ok rs =>
    rw [hq] at h
    refine ⟨rs, rfl, ?_⟩
    simp only [fetchone_fst, fetchmany_fst, fetchmany_snd_pos, fetchmany_snd_rs,
      List.drop_zero, Nat.zero_add] at h
    simp at h ⊢
    exact h.symm

/-- Inversion of a successful `JdbcClient.execute_query` started from a
state holding no connection. -/
lemma client_execute_query_ok (b : Backend) (q : String) (n : Nat) (s0 : ClientState)
    (res : QueryResult) (hc : s0.connection = none)
    (h : (JdbcClient.execute_query b q n s0).1 = Except.ok res) :
    ∃ rs, b.runQuery q = Except.ok rs ∧
      res = { columns := rs.columns, rows := rs.rows.take n,
              row_count := (rs.rows.take n).length,
              has_more := ((rs.rows.drop (rs.rows.take n).length).head?).isSome } := by
  unfold JdbcClient.execute_query at h
  rw [hc] at h
  unfold JdbcClient.connect at h
  cases hok : b.connectOk with
  | false => rw [hok] at h; simp at h
  | true =>
    rw [hok] at h
    simp only [if_true] at h
    exact executeQueryBody_ok b q n _ res h

/-- Inversion of a successful `execute_query` handler invocation: the
arguments were validated, the client was constructed fresh, and the
result comes from the query body on the stripped statement. -/
lemma execute_query_handler_ok (fs : List String) (env : JdbcConfig) (b : Backend)
    (q : String) (mr : Int) (res : QueryResult) (st : Option ClientState)
    (h : execute_query fs env b q mr = (HResult.ok res, st)) :
    1 ≤ mr ∧ mr ≤ 1000 ∧
    ∃ rs, b.runQuery (pyStrip q) = Except.ok rs ∧
      res = { columns := rs.columns, rows := rs.rows.take mr.toNat,
              row_count := (rs.rows.take mr.toNat).length,
              has_more := ((rs.rows.drop (rs.rows.take mr.toNat).length).head?).isSome } := by
  unfold execute_query at h
  cases hp : QueryArgs.parse q mr with
  | error e => rw [hp] at h; simp at h
  | ok args =>
    rw [hp] at h
    obtain ⟨hq, hn, hlo, hhi, -, -⟩ := parse_ok_inversion q mr args hp
    cases hm : JdbcClient.mk fs env with
    | error e => rw [hm] at h; simp at h
    | ok s0 =>
      rw [hm] at h
      dsimp only [] at h
      have hs0 : s0.connection = none := by
        have := (mk_ok_iff fs env s0).mp hm
        rw [this.2.2.2.2]
      cases hr : (JdbcClient.execute_query b args.query args.max_rows s0).1 with
      | error e => rw [hr] at h; simp at h
      | ok v =>
        rw [hr] at h
        simp at h
        obtain ⟨rs, hrun, hres⟩ :=
          client_execute_query_ok b args.query args.max_rows s0 v hs0 hr
        rw [hq] at hrun
        rw [hn] at hres
        exact ⟨hlo, hhi, rs, hrun, by rw [← h.1, hres]⟩

/-- Inversion of a successful pass through the tables body. -/
lemma getTablesBody_ok (b : Backend) (schema : Option String) (inc : Bool)
    (s : ClientState) (res : GetTablesResult)
    (h : (JdbcClient.getTablesBody b schema inc s).1 = Except.ok res) :
    res = { tables := b.getTables schema (if !inc then some ["TABLE"] else none),
            count := (b.getTables schema (if !inc then some ["TABLE"] else none)).length } := by
  unfold JdbcClient.getTablesBody at h
  cases hmok : b.metaOk with
  | false => rw [hmok] at h; simp at h
  | true =>
    rw [hmok] at h
    simp at h ⊢
    exact h.symm

/-- Inversion of a successful `get_tables` handler invocation. -/
lemma get_tables_handler_ok (fs : List String) (env : JdbcConfig) (b : Backend)
    (schema : Option String) (inc : Bool) (res : GetTablesResult) (st : Option ClientState)
    (h : get_tables fs env b schema inc = (HResult.ok res, st)) :
    res = { tables := b.getTables schema (if !inc then some ["TABLE"] else none),
            count := (b.getTables schema (if !inc then some ["TABLE"] else none)).length } := by
  unfold get_tables at h
  cases hm : JdbcClient.mk fs env with
  | error e => rw [hm] at h; simp at h
  | ok s0 =>
    rw [hm] at h
    dsimp only [] at h
    have hs0 : s0.connection = none := by
      have := (mk_ok_iff fs env s0).mp hm
      rw [this.2.2.2.2]
    cases hr : (JdbcClient.get_tables b schema inc s0).1 with
    | error e => rw [hr] at h; simp at h
    | ok v =>
      rw [hr] at h
      simp at h
      rw [← h.1]
      unfold JdbcClient.get_tables at hr
      rw [hs0] at hr
      unfold JdbcClient.connect at hr
      cases hok : b.connectOk with
      | false => rw [hok] at hr; simp at hr
      | true =>
        rw [hok] at hr
        simp only [if_true] at hr
        exact getTablesBody_ok b schema inc _ v hr

/-- Inversion of a successful pass through the columns body: the record
echoes the `table_name` and `schema` arguments verbatim. -/
lemma getColumnsBody_ok (b : Backend) (tn : String) (schema : Option String)
    (s : ClientState) (res : ColumnsResult)
    (h : (JdbcClient.getColumnsBody b tn schema s).1 = Except.ok res) :
    res.table_name = tn ∧ res.schema = schema := by
  unfold JdbcClient.getColumnsBody at h
  cases hmok : b.metaOk with
  | false => rw [hmok] at h; simp at h
  | true =>
    rw [hmok] at h
    simp at h
    rw [← h]
    exact ⟨rfl, rfl⟩

/-- Inversion of a successful `get_columns` handler invocation down to
the columns body, exposing the validated (stripped) table name. -/
lemma get_columns_handler_ok (fs : List String) (env : JdbcConfig) (b : Backend)
    (tn : String) (schema : Option String) (res : ColumnsResult) (st : Option ClientState)
    (h : get_columns fs env b tn schema = (HResult.ok res, st)) :
    res.table_name = pyStrip tn ∧ res.schema = schema := by
  unfold get_columns at h
  cases hv : GetColumnsArgs.validate_table_name tn with
  | error e => rw [hv] at h; simp at h
  | ok tn1 =>
    rw [hv] at h
    have htn : tn1 = pyStrip tn := by
      unfold GetColumnsArgs.validate_table_name at hv
      by_cases h1 : pyStrip tn = ""
      · simp [h1] at hv
      · simp [h1] at hv
        exact hv.symm
    cases hm : JdbcClient.mk fs env with
    | error e => rw [hm] at h; simp at h
    | ok s0 =>
      rw [hm] at h
      dsimp only [] at h
      have hs0 : s0.connection = none := by
        have := (mk_ok_iff fs env s0).mp hm
        rw [this.2.2.2.2]
      cases hr : (JdbcClient.get_columns b tn1 schema s0).1 with
      | error e => rw [hr] at h; simp at h
      | ok v =>
        rw [hr] at h
        simp at h
        rw [← h.1, ← htn]
        unfold JdbcClient.get_columns at hr
        rw [hs0] at hr
        unfold JdbcClient.connect at hr
        cases hok : b.connectOk with
        | false => rw [hok] at hr; simp at hr
        | true =>
          rw [hok] at hr
          simp only [if_true] at hr
          exact getColumnsBody_ok b tn1 schema _ v hr

/-! Claim theorems. -/

/-- C7: `close()` is idempotent and total on the client state: it is an
ordinary total function (its type is `ClientState`, not `Except`, because
the source swallows any failure of the backend close — the theorem
quantifies over backends with `closeFails` true as well), after any call
no connection is held, and a second call is a no-op. -/
theorem close_is_idempotent_and_total (b : Backend) (s : ClientState) :
    (JdbcClient.close b s).connection = none ∧
    JdbcClient.close b (JdbcClient.close b s) = JdbcClient.close b s :=
  ⟨close_connection_eq_none b s,
   close_of_none b _ (close_connection_eq_none b s)⟩

/-- C6: on every exit path of every handler invocation, success or
failure, the final client state holds no connection: either no client
was ever constructed (`none`, so no connection was opened), or the
`finally` block closed whatever the invocation had opened. -/
theorem handlers_close_connection_on_every_exit
    (fs : List String) (env : JdbcConfig) (b : Backend) (q : String) (mr : Int)
    (schema : Option String) (inc : Bool) (tn : String) :
    ((execute_query fs env b q mr).2.all fun st => st.connection.isNone) = true ∧
    ((get_tables fs env b schema inc).2.all fun st => st.connection.isNone) = true ∧
    ((get_columns fs env b tn schema).2.all fun st => st.connection.isNone) = true := by
  refine ⟨?_, ?_, ?_⟩
  · unfold execute_query
    cases hp : QueryArgs.parse q mr with
    | error e => simp
    | ok args =>
      cases hm : JdbcClient.mk fs env with
      | error e => simp
      | ok s0 =>
        cases hr : (JdbcClient.execute_query b args.query args.max_rows s0).1 <;>
          simp [hr, close_connection_eq_none]
  · unfold get_tables
    cases hm : JdbcClient.mk fs env with
    | error e => simp
    | ok s0 =>
      cases hr : (JdbcClient.get_tables b schema inc s0).1 <;>
        simp [hr, close_connection_eq_none]
  · unfold get_columns
    cases hv : GetColumnsArgs.validate_table_name tn with
    | error e => simp
    | ok tn1 =>
      cases hm : JdbcClient.mk fs env with
      | error e => simp
      | ok s0 =>
        cases hr : (JdbcClient.get_columns b tn1 schema s0).1 <;>
          simp [hr, close_connection_eq_none]

/-- C5: every invocation of each of the three handlers produces either a
success record or a structured failure record carrying the message of
the internal error (`validation`, config/connection/execution/catalog
`jdbc` error); the handlers are total Lean functions, so no exception
can propagate and terminate the hosting process. -/
theorem handlers_return_structured_error_records
    (fs : List String) (env : JdbcConfig) (b : Backend) (q : String) (mr : Int)
    (schema : Option String) (inc : Bool) (tn : String) :
    ((∃ v st, execute_query fs env b q mr = (HResult.ok v, st)) ∨
     (∃ e st, execute_query fs env b q mr = (HResult.err (Err.message e), st))) ∧
    ((∃ v st, get_tables fs env b schema inc = (HResult.ok v, st)) ∨
     (∃ e st, get_tables fs env b schema inc = (HResult.err (Err.message e), st))) ∧
    ((∃ v st, get_columns fs env b tn schema = (HResult.ok v, st)) ∨
     (∃ e st, get_columns fs env b tn schema = (HResult.err (Err.message e), st))) := by
  refine ⟨?_, ?_, ?_⟩
  · unfold execute_query
    cases hp : QueryArgs.parse q mr with
    | error e => exact Or.inr ⟨e, none, by simp⟩
    | ok args =>
      cases hm : JdbcClient.mk fs env with
      | error e => exact Or.inr ⟨e, none, by simp⟩
      | ok s0 =>
        cases hr : (JdbcClient.execute_query b args.query args.max_rows s0).1 with
        | ok v =>
          exact Or.inl ⟨v, some (JdbcClient.close b
            (JdbcClient.execute_query b args.query args.max_rows s0).2), by simp [hr]⟩
        | error e =>
          exact Or.inr ⟨e, some (JdbcClient.close b
            (JdbcClient.execute_query b args.query args.max_rows s0).2), by simp [hr]⟩
  · unfold get_tables
    cases hm : JdbcClient.mk fs env with
    | error e => exact Or.inr ⟨e, none, by simp⟩
    | ok s0 =>
      cases hr : (JdbcClient.get_tables b schema inc s0).1 with
      | ok v =>
        exact Or.inl ⟨v, some (JdbcClient.close b
          (JdbcClient.get_tables b schema inc s0).2), by simp [hr]⟩
      | error e =>
        exact Or.inr ⟨e, some (JdbcClient.close b
          (JdbcClient.get_tables b schema inc s0).2), by simp [hr]⟩
  · unfold get_columns
    cases hv : GetColumnsArgs.validate_table_name tn with
    | error e => exact Or.inr ⟨e, none, by simp⟩
    | ok tn1 =>
      cases hm : JdbcClient.mk fs env with
      | error e => exact Or.inr ⟨e, none, by simp⟩
      | ok s0 =>
        cases hr : (JdbcClient.get_columns b tn1 schema s0).1 with
        | ok v =>
          exact Or.inl ⟨v, some (JdbcClient.close b
            (JdbcClient.get_columns b tn1 schema s0).2), by simp [hr]⟩
        | error e =>
          exact Or.inr ⟨e, some (JdbcClient.close b
            (JdbcClient.get_columns b tn1 schema s0).2), by simp [hr]⟩

/-- C1 counterexample: the statement "SELECTION FROM T" has first token
"SELECTION", which does not uppercase-compare equal to "SELECT", yet
validation accepts it (the code checks only that the uppercased trimmed
statement has "SELECT" as a prefix), and the executor is then invoked —
the final trace of the handler contains a backend query call.  This
refutes the claim as stated. -/
theorem validate_query_accepts_non_select_first_token :
    firstToken (pyUpper (pyStrip "SELECTION FROM T")) ≠ "SELECT" ∧
    QueryArgs.validate_query "SELECTION FROM T" = Except.ok "SELECTION FROM T" ∧
    (execute_query fsEx cfgEx bEx "SELECTION FROM T" 100).2 =
      some { connection := none, nextId := 1,
             trace := [BackendCall.connect, BackendCall.execQuery "SELECTION FROM T",
                       BackendCall.closeConn] } := by decide

/-- C1 (amended): query validation accepts a statement iff its stripped
form is non-empty and its uppercased stripped form has "SELECT" as a
prefix (a prefix check, not a first-token equality check); any statement
failing the prefix check is rejected with a validation error, and the
`execute_query` operation then returns the structured error without
ever constructing a client, so no backend call occurs (final state
`none`). -/
theorem validate_query_rejects_iff_not_select_prefixed (v : String) :
    ((∃ q, QueryArgs.validate_query v = Except.ok q) ↔
      (pyStrip v ≠ "" ∧ pyStartsWith (pyUpper (pyStrip v)) "SELECT" = true)) ∧
    (pyStartsWith (pyUpper (pyStrip v)) "SELECT" = false →
      (∃ m, QueryArgs.validate_query v = Except.error (Err.validation m)) ∧
      ∀ (fs : List String) (env : JdbcConfig) (b : Backend) (mr : Int),
        ∃ m, execute_query fs env b v mr = (HResult.err m, none)) := by
  constructor
  · constructor
    · rintro ⟨qq, hq⟩
      unfold QueryArgs.validate_query at hq
      by_cases h1 : pyStrip v = ""
      · simp [h1] at hq
      · by_cases h2 : pyStartsWith (pyUpper (pyStrip v)) "SELECT" = true
        · exact ⟨h1, h2⟩
        · simp [h1, h2] at hq
    · rintro ⟨h1, h2⟩
      refine ⟨pyStrip v, ?_⟩
      unfold QueryArgs.validate_query
      simp [h1, h2]
  · intro h2
    have hval : ∃ m, QueryArgs.validate_query v = Except.error (Err.validation m) := by
      unfold QueryArgs.validate_query
      by_cases h1 : pyStrip v = ""
      · exact ⟨"Query cannot be empty", by simp [h1]⟩
      · exact ⟨"Only SELECT queries are allowed for security reasons", by simp [h1, h2]⟩
    refine ⟨hval, ?_⟩
    intro fs env b mr
    obtain ⟨m, hm⟩ := hval
    refine ⟨m, ?_⟩
    unfold execute_query QueryArgs.parse
    rw [hm]
    rfl

/-- Witness for C1 at the concrete rejected statement "DROP TABLE users". -/
theorem validate_query_rejects_iff_not_select_prefixed_w :
    (∃ m, QueryArgs.validate_query "DROP TABLE users" = Except.error (Err.validation m)) ∧
    ∃ m, execute_query fsEx cfgEx bEx "DROP TABLE users" 100 = (HResult.err m, none) := by
  have h := (validate_query_rejects_iff_not_select_prefixed "DROP TABLE users").2 (by decide)
  exact ⟨h.1, h.2 fsEx cfgEx bEx 100⟩

/-- C3 counterexample: a configuration with empty username and password
but valid driver fields passes client construction — the credentials are
not among the checks, refuting the claim that all five fields are
verified. -/
theorem client_init_accepts_empty_credentials :
    cfgNoCreds.username = "" ∧ cfgNoCreds.password = "" ∧
    JdbcClient.mk fsEx cfgNoCreds =
      Except.ok { connection := none, nextId := 0, trace := [] } := by decide

/-- C3 (amended): client construction checks that the three driver
fields (connection string, driver class name, driver artifact path) are
non-empty and that the driver artifact path references an existing file;
the username and password are not checked.  Any violation of the checked
conditions fails with a `JdbcError` raised at construction, before any
connection attempt: the operation returns the structured error with no
client constructed, so no backend call occurs. -/
theorem verify_config_checks_driver_fields_only (fs : List String) (cfg : JdbcConfig) :
    ((∃ s, JdbcClient.mk fs cfg = Except.ok s) ↔
      (cfg.jdbc_url ≠ "" ∧ cfg.jdbc_driver ≠ "" ∧ cfg.jdbc_driver_path ≠ "" ∧
       pathExists fs cfg.jdbc_driver_path = true)) ∧
    (∀ s, JdbcClient.mk fs cfg = Except.ok s →
      s = { connection := none, nextId := 0, trace := [] }) ∧
    (¬ (cfg.jdbc_url ≠ "" ∧ cfg.jdbc_driver ≠ "" ∧ cfg.jdbc_driver_path ≠ "" ∧
        pathExists fs cfg.jdbc_driver_path = true) →
      ∀ b : Backend, ∃ m, execute_query fs cfg b "SELECT 1" 100 = (HResult.err m, none)) := by
  refine ⟨⟨?_, ?_⟩, ?_, ?_⟩
  · rintro ⟨s, hs⟩
    have := (mk_ok_iff fs cfg s).mp hs
    exact ⟨this.1, this.2.1, this.2.2.1, this.2.2.2.1⟩
  · intro hc
    exact ⟨_, (mk_ok_iff fs cfg _).mpr ⟨hc.1, hc.2.1, hc.2.2.1, hc.2.2.2, rfl⟩⟩
  · intro s hs
    exact ((mk_ok_iff fs cfg s).mp hs).2.2.2.2
  · intro hbad b
    obtain ⟨e, he⟩ := mk_error_of_bad fs cfg hbad
    refine ⟨e.message, ?_⟩
    unfold execute_query
    have hp : QueryArgs.parse "SELECT 1" 100 =
        Except.ok { query := "SELECT 1", max_rows := 100 } := by decide
    rw [hp, he]

/-- Witness for C3 at the all-empty configuration. -/
theorem verify_config_checks_driver_fields_only_w :
    ∃ m, execute_query ([] : List String) cfgBad bEx "SELECT 1" 100 = (HResult.err m, none) :=
  (verify_config_checks_driver_fields_only [] cfgBad).2.2 (by decide) bEx

/-- C4 counterexample: with a connection (handle 0) already open,
`connect()` installs a different handle and performs a backend connect
call — it is not a no-op and the client state is not unchanged. -/
theorem connect_when_connected_is_not_noop :
    (JdbcClient.connect bEx { connection := some 0, nextId := 1, trace := [] }).2.connection ≠
      some 0 ∧
    (JdbcClient.connect bEx { connection := some 0, nextId := 1, trace := [] }).2.trace ≠
      ([] : List BackendCall) := by decide

/-- C4 (amended): `connect()` unconditionally attempts a new backend
connection: when invoked on a state already holding a connection it
records a backend connect call and replaces the held handle with a
fresh one, so `connect(); connect()` is not equivalent to a single
`connect()`.  However, the operations invoke `connect()` only when no
connection is open: `execute_query` started from a connected state
performs exactly the query call and no connect call. -/
theorem connect_always_opens_new_connection (b : Backend) (s : ClientState)
    (hconn : s.connection.isSome = true) (hok : b.connectOk = true) :
    (JdbcClient.connect b s).1 = Except.ok true ∧
    (JdbcClient.connect b s).2.connection = some s.nextId ∧
    (JdbcClient.connect b s).2.trace = s.trace ++ [BackendCall.connect] ∧
    ∀ (q : String) (n : Nat),
      (JdbcClient.execute_query b q n s).2.trace = s.trace ++ [BackendCall.execQuery q] := by
  obtain ⟨hdl, hs⟩ := Option.isSome_iff_exists.mp hconn
  refine ⟨?_, ?_, ?_, ?_⟩
  · unfold JdbcClient.connect
    simp [hok]
  · unfold JdbcClient.connect
    simp [hok]
  · unfold JdbcClient.connect
    simp [hok]
  · intro q n
    unfold JdbcClient.execute_query
    rw [hs]
    unfold JdbcClient.executeQueryBody
    cases hq : b.runQuery q <;> simp [hq]

/-- Witness for C4 at a concrete connected state (handle 0 open). -/
theorem connect_always_opens_new_connection_w :
    (JdbcClient.connect bEx { connection := some 0, nextId := 1, trace := [] }).1 =
      Except.ok true ∧
    (JdbcClient.connect bEx { connection := some 0, nextId := 1, trace := [] }).2.connection =
      some 1 ∧
    (JdbcClient.connect bEx { connection := some 0, nextId := 1, trace := [] }).2.trace =
      [BackendCall.connect] ∧
    ∀ (q : String) (n : Nat),
      (JdbcClient.execute_query bEx q n
        { connection := some 0, nextId := 1, trace := [] }).2.trace =
        [BackendCall.execQuery q] :=
  connect_always_opens_new_connection bEx { connection := some 0, nextId := 1, trace := [] }
    (by decide) (by decide)

/-- C2: every successful `execute_query` invocation has its bound in
`[1,1000]`, returns `row_count` equal to the number of returned rows,
returns at most `max_rows` rows, and reports `has_more` exactly when the
backend result set contains at least one row beyond those returned (the
probe row fetched after the bound, which is discarded). -/
theorem execute_query_row_bound_and_has_more
    (fs : List String) (env : JdbcConfig) (b : Backend) (q : String) (mr : Int)
    (res : QueryResult) (st : Option ClientState)
    (h : execute_query fs env b q mr = (HResult.ok res, st)) :
    1 ≤ mr ∧ mr ≤ 1000 ∧ res.row_count = res.rows.length ∧
    res.rows.length ≤ mr.toNat ∧
    ∃ rs, b.runQuery (pyStrip q) = Except.ok rs ∧
      (res.has_more = true ↔ mr.toNat < rs.rows.length) := by
  obtain ⟨hlo, hhi, rs, hrun, hres⟩ := execute_query_handler_ok fs env b q mr res st h
  subst hres
  refine ⟨hlo, hhi, rfl, ?_, rs, hrun, ?_⟩
  · rw [List.length_take]
    exact Nat.min_le_left _ _
  · show ((rs.rows.drop (rs.rows.take mr.toNat).length).head?).isSome = true ↔
      mr.toNat < rs.rows.length
    rw [probe_has_more]
    exact decide_eq_true_iff

/-- Witness for C2: the example backend query with `max_rows = 2` over a
three-row result set returns two rows and `has_more = true`. -/
theorem execute_query_row_bound_and_has_more_w :
    (1 : Int) ≤ 2 ∧ (2 : Int) ≤ 1000 ∧ resEx.row_count = resEx.rows.length ∧
    resEx.rows.length ≤ (2 : Int).toNat ∧
    ∃ rs, bEx.runQuery (pyStrip "SELECT B, A FROM T") = Except.ok rs ∧
      (resEx.has_more = true ↔ (2 : Int).toNat < rs.rows.length) :=
  execute_query_row_bound_and_has_more fsEx cfgEx bEx "SELECT B, A FROM T" 2 resEx
    (some stEx) (by decide)

/-- C8: every successful `execute_query` invocation reports exactly the
backend's column-name sequence in the backend's order (never re-sorted),
and the returned rows are the verbatim prefix of the backend's rows, so
each row keeps the backend's column ordering. -/
theorem execute_query_preserves_backend_order
    (fs : List String) (env : JdbcConfig) (b : Backend) (q : String) (mr : Int)
    (res : QueryResult) (st : Option ClientState)
    (h : execute_query fs env b q mr = (HResult.ok res, st)) :
    ∃ rs, b.runQuery (pyStrip q) = Except.ok rs ∧
      res.columns = rs.columns ∧
      res.rows = rs.rows.take mr.toNat ∧
      ∀ i : Nat, i < res.rows.length → res.rows[i]? = rs.rows[i]? := by
  obtain ⟨hlo, hhi, rs, hrun, hres⟩ := execute_query_handler_ok fs env b q mr res st h
  subst hres
  refine ⟨rs, hrun, rfl, rfl, ?_⟩
  intro i hi
  show (rs.rows.take mr.toNat)[i]? = rs.rows[i]?
  rw [List.length_take] at hi
  exact List.getElem?_take_of_lt (lt_of_lt_of_le hi (Nat.min_le_left _ _))

/-- Witness for C8 at the example backend, whose columns are reported in
the non-alphabetical order B, A. -/
theorem execute_query_preserves_backend_order_w :
    ∃ rs, bEx.runQuery (pyStrip "SELECT B, A FROM T") = Except.ok rs ∧
      resEx.columns = rs.columns ∧
      resEx.rows = rs.rows.take (2 : Int).toNat ∧
      ∀ i : Nat, i < resEx.rows.length → resEx.rows[i]? = rs.rows[i]? :=
  execute_query_preserves_backend_order fsEx cfgEx bEx "SELECT B, A FROM T" 2 resEx
    (some stEx) (by decide)

/-- C9: every successful `get_tables` invocation with
`include_system = false` returns only catalog entries of type `"TABLE"`
(in particular no entry marked `"SYSTEM TABLE"` appears, even when such
entries exist in the requested schema), and the returned list is a
sublist of the catalog, i.e. keeps the catalog's natural order. -/
theorem get_tables_excludes_system_tables
    (fs : List String) (env : JdbcConfig) (b : Backend) (schema : Option String)
    (res : GetTablesResult) (st : Option ClientState)
    (h : get_tables fs env b schema false = (HResult.ok res, st)) :
    (∀ t ∈ res.tables, t.type = "TABLE") ∧
    (∀ t ∈ res.tables, t.type ≠ "SYSTEM TABLE") ∧
    List.Sublist res.tables b.catalogTables ∧
    res.count = res.tables.length := by
  have hres := get_tables_handler_ok fs env b schema false res st h
  have htab : res.tables = b.getTables schema (some ["TABLE"]) := by
    rw [hres]
    rfl
  have hcnt : res.count = res.tables.length := by rw [hres]
  have hall : ∀ t ∈ res.tables, t.type = "TABLE" := by
    intro t hmem
    rw [htab] at hmem
    unfold Backend.getTables at hmem
    rw [List.mem_filter] at hmem
    have hp := hmem.2
    rw [Bool.and_eq_true] at hp
    have h2 := hp.2
    dsimp only [] at h2
    rw [List.any_cons, List.any_nil, Bool.or_false, decide_eq_true_eq] at h2
    exact h2.symm
  refine ⟨hall, ?_, ?_, hcnt⟩
  · intro t hmem
    rw [hall t hmem]
    decide
  · rw [htab]
    unfold Backend.getTables
    exact List.filter_sublist _

/-- Witness for C9: the example catalog holds a system table in schema
`public`, and the returned list contains only the ordinary table. -/
theorem get_tables_excludes_system_tables_w :
    (∀ t ∈ tablesResEx.tables, t.type = "TABLE") ∧
    (∀ t ∈ tablesResEx.tables, t.type ≠ "SYSTEM TABLE") ∧
    List.Sublist tablesResEx.tables bEx.catalogTables ∧
    tablesResEx.count = tablesResEx.tables.length :=
  get_tables_excludes_system_tables fsEx cfgEx bEx (some "public") tablesResEx
    (some tablesStEx) (by decide)

/-- C10: every successful `get_columns` invocation echoes the
caller-supplied table name, whitespace-stripped, in `table_name` and the
caller-supplied schema argument verbatim in `schema` (in particular
`none` when it was omitted); since the statement holds for every
backend, neither field is read back from or resolved against the
catalog. -/
theorem get_columns_echoes_caller_arguments
    (fs : List String) (env : JdbcConfig) (b : Backend) (tn : String)
    (schema : Option String) (res : ColumnsResult) (st : Option ClientState)
    (h : get_columns fs env b tn schema = (HResult.ok res, st)) :
    res.table_name = pyStrip tn ∧ res.schema = schema :=
  get_columns_handler_ok fs env b tn schema res st h

/-- Witness for C10 at the concrete table name `"  users "`, which is
echoed back stripped. -/
theorem get_columns_echoes_caller_arguments_w :
    colsResEx.table_name = pyStrip "  users " ∧ colsResEx.schema = some "public" :=
  get_columns_echoes_caller_arguments fsEx cfgEx bEx "  users " (some "public")
    colsResEx (some colsStEx) (by decide)

end SimpleJdbc
